/-
Verification of the MRM emergency stop operator
(src/system/mrm_emergency_stop_operator/src/mrm_emergency_stop_operator/
mrm_emergency_stop_operator_core.cpp).

The node state and its three handlers (onControlCommand, operateEmergencyStop,
onTimer) together with the ramp generator (calcTargetAcceleration) are embedded
as pure Lean functions over an explicit state record.  Real-valued message
fields (C++ float/double) are modelled as exact rationals; `this->now()` is a
parameter of each handler invocation.  ROS default-constructed messages are
all-zero records.
-/
import Mathlib

set_option autoImplicit false

namespace MrmEmergencyStop

/-- Lateral part of an AckermannControlCommand message. -/
structure AckermannLateralCommand where
  stamp : ℚ
  steering_tire_angle : ℚ
  steering_tire_rotation_rate : ℚ
  deriving DecidableEq, Repr

/-- Longitudinal part of an AckermannControlCommand message. -/
structure LongitudinalCommand where
  stamp : ℚ
  speed : ℚ
  acceleration : ℚ
  jerk : ℚ
  deriving DecidableEq, Repr

/-- The AckermannControlCommand message. -/
structure AckermannControlCommand where
  stamp : ℚ
  lateral : AckermannLateralCommand
  longitudinal : LongitudinalCommand
  deriving DecidableEq, Repr

/-- The two values taken by `status_.state` (MrmBehaviorStatus constants). -/
inductive MrmState where
  | AVAILABLE
  | OPERATING
  deriving DecidableEq, Repr

/-- The MrmBehaviorStatus message published every tick. -/
structure MrmBehaviorStatus where
  stamp : ℚ
  state : MrmState
  deriving DecidableEq, Repr

/-- The node parameters, declared once in the constructor. -/
structure Parameters where
  update_rate : ℤ
  target_acceleration : ℚ
  target_jerk : ℚ
  steering_handling_type : ℤ
  deriving DecidableEq, Repr

/-- The mutable member state of MrmEmergencyStopOperator:
`status_.state`, `prev_control_cmd_`, `is_prev_control_cmd_subscribed_`
and `lateral_cmd_at_start_of_emergency_stop_`. -/
structure OperatorState where
  state : MrmState
  prev_control_cmd : AckermannControlCommand
  is_prev_control_cmd_subscribed : Bool
  lateral_cmd_at_start_of_emergency_stop : AckermannLateralCommand
  deriving DecidableEq, Repr

/-- State after the constructor: `status_.state = AVAILABLE`,
`is_prev_control_cmd_subscribed_ = false`, messages default-constructed. -/
def initState : OperatorState where
  state := MrmState.AVAILABLE
  prev_control_cmd :=
    { stamp := 0
      lateral := { stamp := 0, steering_tire_angle := 0, steering_tire_rotation_rate := 0 }
      longitudinal := { stamp := 0, speed := 0, acceleration := 0, jerk := 0 } }
  is_prev_control_cmd_subscribed := false
  lateral_cmd_at_start_of_emergency_stop :=
    { stamp := 0, steering_tire_angle := 0, steering_tire_rotation_rate := 0 }

/-- MrmEmergencyStopOperator::onControlCommand. -/
def onControlCommand (s : OperatorState) (msg : AckermannControlCommand) : OperatorState :=
  if s.state ≠ MrmState.OPERATING then
    { s with prev_control_cmd := msg, is_prev_control_cmd_subscribed := true }
  else
    s

/-- MrmEmergencyStopOperator::operateEmergencyStop; the Bool is the
`response->response.success` flag. -/
def operateEmergencyStop (s : OperatorState) (operate : Bool) : OperatorState × Bool :=
  if operate = true then
    let lat : AckermannLateralCommand :=
      if s.is_prev_control_cmd_subscribed then
        s.prev_control_cmd.lateral
      else
        { s.lateral_cmd_at_start_of_emergency_stop with
          steering_tire_angle := 0, steering_tire_rotation_rate := 0 }
    ({ s with lateral_cmd_at_start_of_emergency_stop := lat, state := MrmState.OPERATING }, true)
  else
    ({ s with state := MrmState.AVAILABLE }, true)

/-- MrmEmergencyStopOperator::publishStatus. -/
def publishStatus (now : ℚ) (s : OperatorState) : MrmBehaviorStatus where
  stamp := now
  state := s.state

/-- MrmEmergencyStopOperator::calcTargetAcceleration.  Reads the member
`is_prev_control_cmd_subscribed_` (passed explicitly) and the parameters. -/
def calcTargetAcceleration (params : Parameters) (is_subscribed : Bool) (now : ℚ)
    (prev_control_cmd : AckermannControlCommand) : AckermannControlCommand :=
  if is_subscribed = false then
    { stamp := now
      lateral := { stamp := now, steering_tire_angle := 0, steering_tire_rotation_rate := 0 }
      longitudinal :=
        { stamp := now, speed := 0, acceleration := params.target_acceleration, jerk := 0 } }
  else
    let dt : ℚ := now - prev_control_cmd.stamp
    { prev_control_cmd with
      stamp := now
      longitudinal :=
        { prev_control_cmd.longitudinal with
          stamp := now
          speed := max (prev_control_cmd.longitudinal.speed +
                        prev_control_cmd.longitudinal.acceleration * dt) 0
          acceleration := max (prev_control_cmd.longitudinal.acceleration +
                               params.target_jerk * dt) params.target_acceleration
          jerk := if prev_control_cmd.longitudinal.acceleration = params.target_acceleration
                  then 0 else params.target_jerk } }

/-- MrmEmergencyStopOperator::onTimer; the second component is the control
command published on this tick. -/
def onTimer (params : Parameters) (now : ℚ) (s : OperatorState) :
    OperatorState × AckermannControlCommand :=
  if s.state = MrmState.OPERATING then
    let control_cmd :=
      calcTargetAcceleration params s.is_prev_control_cmd_subscribed now s.prev_control_cmd
    ({ s with prev_control_cmd := control_cmd }, control_cmd)
  else
    (s, s.prev_control_cmd)

/-- An externally triggered handler invocation. -/
inductive Event where
  | controlCommand (msg : AckermannControlCommand)
  | operate (flag : Bool)
  | timerTick (now : ℚ)
  deriving DecidableEq, Repr

/-- Whether an event is an inbound upstream command. -/
def Event.isControlCommand : Event → Bool
  | Event.controlCommand _ => true
  | _ => false

/-- Whether an event is a takeover (operate) request. -/
def Event.isOperate : Event → Bool
  | Event.operate _ => true
  | _ => false

/-- One handler dispatch; the list collects the control commands published by
the event (empty except for timer ticks). -/
def step (params : Parameters) (s : OperatorState) : Event → OperatorState × List AckermannControlCommand
  | Event.controlCommand msg => (onControlCommand s msg, [])
  | Event.operate flag => ((operateEmergencyStop s flag).1, [])
  | Event.timerTick now =>
      let r := onTimer params now s
      (r.1, [r.2])

/-- Run the node over a sequence of events, collecting every published control
command in order. -/
def run (params : Parameters) (s : OperatorState) : List Event → OperatorState × List AckermannControlCommand
  | [] => (s, [])
  | e :: es =>
      let r := step params s e
      let rest := run params r.1 es
      (rest.1, r.2 ++ rest.2)

/-- Iterate the ramp generator (with an observed previous command) over a list
of invocation times. -/
def rampSteps (params : Parameters) (prev : AckermannControlCommand) :
    List ℚ → AckermannControlCommand
  | [] => prev
  | t :: ts => rampSteps params (calcTargetAcceleration params true t prev) ts

/-- Parameter values from the declared defaults: rate 30, target acceleration
-2.5, target jerk -1.5. -/
def params0 : Parameters where
  update_rate := 30
  target_acceleration := -5/2
  target_jerk := -3/2
  steering_handling_type := 0

/-- A sample upstream driving command. -/
def msgA : AckermannControlCommand where
  stamp := 0
  lateral := { stamp := 0, steering_tire_angle := 1/10, steering_tire_rotation_rate := 1/100 }
  longitudinal := { stamp := 0, speed := 10, acceleration := 0, jerk := 0 }

/-- A sample upstream command with negative speed and strong deceleration. -/
def msgNeg : AckermannControlCommand where
  stamp := 0
  lateral := { stamp := 0, steering_tire_angle := 0, steering_tire_rotation_rate := 0 }
  longitudinal := { stamp := 0, speed := -1, acceleration := -1, jerk := 0 }

/-- The state after observing `msgA` while AVAILABLE. -/
def sObs : OperatorState := onControlCommand initState msgA

/-- The state after observing `msgA` and then activating. -/
def sOp : OperatorState := (operateEmergencyStop sObs true).1

/-- An upstream command violating both published-command bounds. -/
def msgBad : AckermannControlCommand where
  stamp := 0
  lateral := { stamp := 0, steering_tire_angle := 0, steering_tire_rotation_rate := 0 }
  longitudinal := { stamp := 0, speed := -1, acceleration := -10, jerk := 0 }

/-- A previous command already decelerating, with nonnegative speed. -/
def msgDecel : AckermannControlCommand where
  stamp := 0
  lateral := { stamp := 0, steering_tire_angle := 1/10, steering_tire_rotation_rate := 0 }
  longitudinal := { stamp := 0, speed := 10, acceleration := -1, jerk := -3/2 }

/-- A previous command whose acceleration already equals the target. -/
def msgAtTarget : AckermannControlCommand where
  stamp := 0
  lateral := { stamp := 0, steering_tire_angle := 1/10, steering_tire_rotation_rate := 0 }
  longitudinal := { stamp := 0, speed := 5, acceleration := -5/2, jerk := 0 }

/-- Claim C9: the operator state starts AVAILABLE at construction and is
changed only by the takeover request handler: no timer tick and no inbound
upstream command ever changes the state. -/
theorem C9_state_only_changed_by_operate :
    initState.state = MrmState.AVAILABLE ∧
    (∀ s msg, (onControlCommand s msg).state = s.state) ∧
    (∀ params now s, (onTimer params now s).1.state = s.state) := by
  refine ⟨rfl, fun s msg => ?_, fun params now s => ?_⟩
  · unfold onControlCommand
    split <;> rfl
  · unfold onTimer
    split <;> rfl

/-- Claim C7: when the state is not OPERATING, an inbound upstream command is
stored as the last observed command and the observed flag is set, with all
other fields unchanged; when the state is OPERATING, the whole state is left
unchanged. -/
theorem C7_onControlCommand_effect (s : OperatorState) (msg : AckermannControlCommand) :
    (s.state ≠ MrmState.OPERATING →
      onControlCommand s msg =
        { s with prev_control_cmd := msg, is_prev_control_cmd_subscribed := true }) ∧
    (s.state = MrmState.OPERATING → onControlCommand s msg = s) := by
  constructor <;> intro h <;> simp [onControlCommand, h]

/-- Witness for C7 at concrete inputs: storing while AVAILABLE, ignoring while
OPERATING. -/
theorem C7_onControlCommand_effect_witness :
    onControlCommand initState msgA =
      { initState with prev_control_cmd := msgA, is_prev_control_cmd_subscribed := true } ∧
    onControlCommand sOp msgBad = sOp :=
  ⟨(C7_onControlCommand_effect initState msgA).1 (by with_unfolding_all decide),
   (C7_onControlCommand_effect sOp msgBad).2 (by with_unfolding_all decide)⟩

/-- Claim C2 counterexample: in the normal integration path the lateral stamp
of the returned command is the previous command's lateral stamp, not the
current time. -/
theorem C2_counterexample_lateral_stamp :
    (calcTargetAcceleration params0 true 1 msgA).lateral.stamp ≠ (1 : ℚ) := by
  with_unfolding_all decide

/-- Claim C2 amended: the top-level stamp and the longitudinal stamp of every
ramp generator output equal the current time; the lateral stamp equals the
current time in the bootstrap path but is carried over unchanged from the
previous command in the normal integration path. -/
theorem C2_stamps (params : Parameters) (sub : Bool) (now : ℚ)
    (prev : AckermannControlCommand) :
    (calcTargetAcceleration params sub now prev).stamp = now ∧
    (calcTargetAcceleration params sub now prev).longitudinal.stamp = now ∧
    (sub = false → (calcTargetAcceleration params sub now prev).lateral.stamp = now) ∧
    (sub = true →
      (calcTargetAcceleration params sub now prev).lateral.stamp = prev.lateral.stamp) := by
  unfold calcTargetAcceleration
  cases sub <;> simp

/-- Witness for C2 at concrete inputs, covering both paths. -/
theorem C2_stamps_witness :
    (calcTargetAcceleration params0 false 2 msgA).lateral.stamp = 2 ∧
    (calcTargetAcceleration params0 true 2 msgA).lateral.stamp = msgA.lateral.stamp :=
  ⟨(C2_stamps params0 false 2 msgA).2.2.1 rfl,
   (C2_stamps params0 true 2 msgA).2.2.2 rfl⟩

/-- Claim C3 counterexample: while AVAILABLE the timer republishes the stored
upstream command unchanged, so a published command can have negative speed and
acceleration below the configured target. -/
theorem C3_counterexample_available_republish :
    ¬ (∀ cmd ∈ (run params0 initState [Event.controlCommand msgBad, Event.timerTick 1]).2,
        0 ≤ cmd.longitudinal.speed ∧
        params0.target_acceleration ≤ cmd.longitudinal.acceleration) := by
  with_unfolding_all decide

/-- Claim C3 amended: every control command published by a timer tick in the
OPERATING state has nonnegative longitudinal speed and longitudinal
acceleration at least the configured target acceleration; commands republished
while AVAILABLE are passed through unchanged and are not subject to these
bounds. -/
theorem C3_operating_output_bounds (params : Parameters) (now : ℚ) (s : OperatorState)
    (hs : s.state = MrmState.OPERATING) :
    0 ≤ (onTimer params now s).2.longitudinal.speed ∧
    params.target_acceleration ≤ (onTimer params now s).2.longitudinal.acceleration := by
  unfold onTimer
  rw [if_pos hs]
  unfold calcTargetAcceleration
  cases h : s.is_prev_control_cmd_subscribed <;> simp

/-- Witness for C3 at a concrete OPERATING state. -/
theorem C3_operating_output_bounds_witness :
    0 ≤ (onTimer params0 2 sOp).2.longitudinal.speed ∧
    params0.target_acceleration ≤ (onTimer params0 2 sOp).2.longitudinal.acceleration :=
  C3_operating_output_bounds params0 2 sOp (by with_unfolding_all decide)

/-- Claim C6 counterexample: with a negative previous speed, every other
hypothesis of the claim holds, yet the output speed is clamped up to 0 and so
exceeds the previous speed. -/
theorem C6_counterexample_negative_prev_speed :
    (0 : ℚ) ≤ 0 - msgNeg.stamp ∧ params0.target_jerk < 0 ∧
    params0.target_acceleration < 0 ∧
    params0.target_acceleration ≤ msgNeg.longitudinal.acceleration ∧
    msgNeg.longitudinal.acceleration < 0 ∧
    ¬ ((calcTargetAcceleration params0 true 0 msgNeg).longitudinal.speed ≤
        msgNeg.longitudinal.speed) := by
  with_unfolding_all decide

/-- Claim C6 amended: under the stated hypotheses the output acceleration lies
between the target acceleration and the previous acceleration; and when the
previous acceleration is negative and additionally the previous speed is
nonnegative, the output speed lies between 0 and the previous speed. -/
theorem C6_ramp_monotone (params : Parameters) (now : ℚ) (prev : AckermannControlCommand)
    (hdt : 0 ≤ now - prev.stamp) (hj : params.target_jerk < 0)
    (ha : params.target_acceleration < 0)
    (hge : params.target_acceleration ≤ prev.longitudinal.acceleration) :
    ((calcTargetAcceleration params true now prev).longitudinal.acceleration ≤
        prev.longitudinal.acceleration ∧
      params.target_acceleration ≤
        (calcTargetAcceleration params true now prev).longitudinal.acceleration) ∧
    (prev.longitudinal.acceleration < 0 → 0 ≤ prev.longitudinal.speed →
      ((calcTargetAcceleration params true now prev).longitudinal.speed ≤
          prev.longitudinal.speed ∧
        0 ≤ (calcTargetAcceleration params true now prev).longitudinal.speed)) := by
  unfold calcTargetAcceleration
  simp only [Bool.true_eq_false, if_false]
  refine ⟨⟨max_le ?_ hge, le_max_right _ _⟩, fun hneg hsp => ⟨max_le ?_ hsp, le_max_right _ _⟩⟩
  · nlinarith
  · nlinarith

/-- Witness for C6 at a concrete decelerating previous command. -/
theorem C6_ramp_monotone_witness :
    ((calcTargetAcceleration params0 true 1 msgDecel).longitudinal.acceleration ≤
        msgDecel.longitudinal.acceleration ∧
      params0.target_acceleration ≤
        (calcTargetAcceleration params0 true 1 msgDecel).longitudinal.acceleration) ∧
    ((calcTargetAcceleration params0 true 1 msgDecel).longitudinal.speed ≤
        msgDecel.longitudinal.speed ∧
      0 ≤ (calcTargetAcceleration params0 true 1 msgDecel).longitudinal.speed) :=
  have h := C6_ramp_monotone params0 1 msgDecel (by with_unfolding_all decide)
    (by with_unfolding_all decide) (by with_unfolding_all decide)
    (by with_unfolding_all decide)
  ⟨h.1, h.2 (by with_unfolding_all decide) (by with_unfolding_all decide)⟩

/-- One ramp step from a command whose acceleration already equals the target
keeps the acceleration at the target, reports zero jerk, and stamps the output
with the invocation time. -/
lemma calc_step_at_target (params : Parameters) (prev : AckermannControlCommand)
    (hj : params.target_jerk ≤ 0)
    (ha : prev.longitudinal.acceleration = params.target_acceleration)
    (now : ℚ) (hdt : prev.stamp ≤ now) :
    (calcTargetAcceleration params true now prev).longitudinal.acceleration =
      params.target_acceleration ∧
    (calcTargetAcceleration params true now prev).longitudinal.jerk = 0 ∧
    (calcTargetAcceleration params true now prev).stamp = now := by
  have hle : params.target_acceleration + params.target_jerk * (now - prev.stamp) ≤
      params.target_acceleration := by nlinarith
  unfold calcTargetAcceleration
  simp [ha, max_eq_right hle]

/-- Claim C5: the output jerk of a normal-path ramp step is 0 exactly when the
previous acceleration equals the target acceleration and is the target jerk
otherwise; and once a command's acceleration equals the target, every
subsequent ramp step with nonnegative elapsed time and nonpositive target jerk
keeps the acceleration at the target and reports zero jerk. -/
theorem C5_jerk_settles (params : Parameters) (prev : AckermannControlCommand) :
    (∀ now : ℚ,
      (calcTargetAcceleration params true now prev).longitudinal.jerk =
        if prev.longitudinal.acceleration = params.target_acceleration then 0
        else params.target_jerk) ∧
    (params.target_jerk ≤ 0 →
      prev.longitudinal.acceleration = params.target_acceleration →
      ∀ ts : List ℚ, List.Chain (fun a b => a ≤ b) prev.stamp ts →
        (rampSteps params prev ts).longitudinal.acceleration = params.target_acceleration ∧
        (ts ≠ [] → (rampSteps params prev ts).longitudinal.jerk = 0)) := by
  constructor
  · intro now
    simp [calcTargetAcceleration]
  · intro hj ha ts hchain
    induction ts generalizing prev with
    | nil => exact ⟨ha, fun h => absurd rfl h⟩
    | cons t ts ih =>
      rw [List.chain_cons] at hchain
      obtain ⟨hstep, hjerk, hstamp⟩ :=
        calc_step_at_target params prev hj ha t hchain.1
      have hrest := ih (calcTargetAcceleration params true t prev) hstep
        (by rw [hstamp]; exact hchain.2)
      refine ⟨hrest.1, fun _ => ?_⟩
      cases ts with
      | nil => exact hjerk
      | cons u us => exact hrest.2 (by simp)

/-- Witness for C5 at a concrete at-target command and two further steps. -/
theorem C5_jerk_settles_witness :
    (calcTargetAcceleration params0 true 1 msgAtTarget).longitudinal.jerk =
      (if msgAtTarget.longitudinal.acceleration = params0.target_acceleration then 0
       else params0.target_jerk) ∧
    (rampSteps params0 msgAtTarget [1, 2]).longitudinal.acceleration =
      params0.target_acceleration ∧
    (rampSteps params0 msgAtTarget [1, 2]).longitudinal.jerk = 0 :=
  have h := C5_jerk_settles params0 msgAtTarget
  have h2 := h.2 (by with_unfolding_all decide) (by with_unfolding_all decide) [1, 2]
    (List.Chain.cons (by with_unfolding_all decide)
      (List.Chain.cons (by with_unfolding_all decide) List.Chain.nil))
  ⟨h.1 1, h2.1, h2.2 (by with_unfolding_all decide)⟩

/-- Handlers other than onControlCommand never change the observed flag, so a
run without inbound upstream commands preserves it. -/
lemma run_no_upstream_preserves_flag (params : Parameters) (s : OperatorState)
    (es : List Event) (hes : ∀ e ∈ es, e.isControlCommand = false) :
    (run params s es).1.is_prev_control_cmd_subscribed =
      s.is_prev_control_cmd_subscribed := by
  induction es generalizing s with
  | nil => rfl
  | cons e es ih =>
    have htail : ∀ x ∈ es, x.isControlCommand = false :=
      fun x hx => hes x (List.mem_cons_of_mem e hx)
    cases e with
    | controlCommand msg =>
      exact absurd (hes _ (List.mem_cons_self _ _)) (by simp [Event.isControlCommand])
    | operate flag =>
      rw [run, step]
      rw [ih _ htail]
      unfold operateEmergencyStop
      cases flag <;> simp
    | timerTick t =>
      rw [run, step]
      rw [ih _ htail]
      unfold onTimer
      split <;> rfl

/-- Claim C4: if activation occurs while no upstream command was ever observed,
then along any continuation without inbound upstream commands the observed
flag stays false and every ramp output (a timer tick in the OPERATING state)
is the bootstrap command: speed 0, acceleration equal to the target
acceleration, jerk 0, zero steering angle and rate, all stamps the tick
time. -/
theorem C4_unobserved_bootstrap (params : Parameters) (s : OperatorState)
    (hsub : s.is_prev_control_cmd_subscribed = false)
    (es : List Event) (hes : ∀ e ∈ es, e.isControlCommand = false) (now : ℚ) :
    (run params (operateEmergencyStop s true).1 es).1.is_prev_control_cmd_subscribed =
      false ∧
    ((run params (operateEmergencyStop s true).1 es).1.state = MrmState.OPERATING →
      (onTimer params now (run params (operateEmergencyStop s true).1 es).1).2 =
        { stamp := now
          lateral := { stamp := now, steering_tire_angle := 0,
                       steering_tire_rotation_rate := 0 }
          longitudinal := { stamp := now, speed := 0,
                            acceleration := params.target_acceleration, jerk := 0 } }) := by
  have hflag1 : (operateEmergencyStop s true).1.is_prev_control_cmd_subscribed = false := by
    unfold operateEmergencyStop
    simpa using hsub
  have hflag := run_no_upstream_preserves_flag params (operateEmergencyStop s true).1 es hes
  rw [hflag1] at hflag
  refine ⟨hflag, fun hstate => ?_⟩
  unfold onTimer
  rw [if_pos hstate]
  unfold calcTargetAcceleration
  rw [hflag]
  simp

/-- Witness for C4: activation from the initial state, one tick later still
publishing the bootstrap command. -/
theorem C4_unobserved_bootstrap_witness :
    (run params0 (operateEmergencyStop initState true).1 [Event.timerTick 1]).1.is_prev_control_cmd_subscribed =
      false ∧
    ((run params0 (operateEmergencyStop initState true).1 [Event.timerTick 1]).1.state =
        MrmState.OPERATING →
      (onTimer params0 2 (run params0 (operateEmergencyStop initState true).1
          [Event.timerTick 1]).1).2 =
        { stamp := 2
          lateral := { stamp := 2, steering_tire_angle := 0,
                       steering_tire_rotation_rate := 0 }
          longitudinal := { stamp := 2, speed := 0,
                            acceleration := params0.target_acceleration, jerk := 0 } }) :=
  C4_unobserved_bootstrap params0 initState (by with_unfolding_all decide)
    [Event.timerTick 1] (by with_unfolding_all decide) 2

/-- A timer tick never changes the state field. -/
lemma onTimer_state (params : Parameters) (now : ℚ) (s : OperatorState) :
    (onTimer params now s).1.state = s.state := by
  unfold onTimer
  split <;> rfl

/-- A timer tick never changes the observed flag. -/
lemma onTimer_flag (params : Parameters) (now : ℚ) (s : OperatorState) :
    (onTimer params now s).1.is_prev_control_cmd_subscribed =
      s.is_prev_control_cmd_subscribed := by
  unfold onTimer
  split <;> rfl

/-- A timer tick never changes the frozen lateral snapshot. -/
lemma onTimer_snapshot (params : Parameters) (now : ℚ) (s : OperatorState) :
    (onTimer params now s).1.lateral_cmd_at_start_of_emergency_stop =
      s.lateral_cmd_at_start_of_emergency_stop := by
  unfold onTimer
  split <;> rfl

/-- In the OPERATING state a tick stores its published ramp output as the new
previous command. -/
lemma onTimer_prev_operating (params : Parameters) (now : ℚ) (s : OperatorState)
    (hs : s.state = MrmState.OPERATING) :
    (onTimer params now s).1.prev_control_cmd = (onTimer params now s).2 ∧
    (onTimer params now s).2 =
      calcTargetAcceleration params s.is_prev_control_cmd_subscribed now
        s.prev_control_cmd := by
  unfold onTimer
  rw [if_pos hs]
  exact ⟨rfl, rfl⟩

/-- In the normal integration path the whole lateral command is carried over
from the previous command. -/
lemma calc_lateral_passthrough (params : Parameters) (now : ℚ)
    (prev : AckermannControlCommand) :
    (calcTargetAcceleration params true now prev).lateral = prev.lateral := rfl

/-- A run of timer ticks from an OPERATING state stays OPERATING, publishes
one command per tick, and its last published command is the final
previous-command buffer. -/
lemma run_ticks_operating (params : Parameters) (s : OperatorState)
    (hs : s.state = MrmState.OPERATING) (ts : List ℚ) :
    (run params s (ts.map Event.timerTick)).1.state = MrmState.OPERATING ∧
    (run params s (ts.map Event.timerTick)).2.length = ts.length ∧
    (ts ≠ [] →
      (run params s (ts.map Event.timerTick)).2.getLast? =
        some (run params s (ts.map Event.timerTick)).1.prev_control_cmd) := by
  induction ts generalizing s with
  | nil => exact ⟨hs, rfl, fun h => absurd rfl h⟩
  | cons t ts ih =>
    rw [List.map_cons, run]
    have hstep : step params s (Event.timerTick t) =
        ((onTimer params t s).1, [(onTimer params t s).2]) := rfl
    rw [hstep]
    dsimp only
    have hs1 : (onTimer params t s).1.state = MrmState.OPERATING := by
      rw [onTimer_state]
      exact hs
    obtain ⟨h1, h2, h3⟩ := ih _ hs1
    refine ⟨h1, by simpa using h2, fun _ => ?_⟩
    by_cases hts1 : ts = []
    · subst hts1
      simp [run, (onTimer_prev_operating params t s hs).1]
    · have hne : (run params (onTimer params t s).1 (ts.map Event.timerTick)).2 ≠ [] := by
        intro h0
        rw [h0] at h2
        exact hts1 (List.length_eq_zero.mp h2.symm)
      rw [List.getLast?_append_of_ne_nil [(onTimer params t s).2] hne]
      exact h3 hts1

/-- Claim C1 counterexample: observe an upstream command, activate, tick once,
deactivate, tick again; the command published on the tick after deactivation
is the stored ramp output, not the upstream command observed before
activation. -/
theorem C1_counterexample_not_upstream :
    (run params0 initState [Event.controlCommand msgA, Event.operate true,
        Event.timerTick 1, Event.operate false, Event.timerTick 2]).2[1]? ≠ some msgA := by
  with_unfolding_all decide

/-- Claim C1 amended: after at least one OPERATING tick, deactivating and then
ticking republishes the stored previous command, which is the last ramp output
published while OPERATING — not the upstream command observed before
activation. -/
theorem C1_first_tick_after_deactivation (params : Parameters) (s : OperatorState)
    (hs : s.state = MrmState.OPERATING) (ts : List ℚ) (hts : ts ≠ []) (now : ℚ) :
    (onTimer params now
        (operateEmergencyStop (run params s (ts.map Event.timerTick)).1 false).1).2 =
      (run params s (ts.map Event.timerTick)).1.prev_control_cmd ∧
    (run params s (ts.map Event.timerTick)).2.getLast? =
      some (run params s (ts.map Event.timerTick)).1.prev_control_cmd := by
  obtain ⟨h1, h2, h3⟩ := run_ticks_operating params s hs ts
  refine ⟨?_, h3 hts⟩
  unfold operateEmergencyStop onTimer
  simp

/-- Witness for C1: one OPERATING tick from a concrete activated state. -/
theorem C1_first_tick_after_deactivation_witness :
    (onTimer params0 2
        (operateEmergencyStop (run params0 sOp ([1].map Event.timerTick)).1 false).1).2 =
      (run params0 sOp ([1].map Event.timerTick)).1.prev_control_cmd ∧
    (run params0 sOp ([1].map Event.timerTick)).2.getLast? =
      some (run params0 sOp ([1].map Event.timerTick)).1.prev_control_cmd :=
  C1_first_tick_after_deactivation params0 sOp (by with_unfolding_all decide) [1]
    (by with_unfolding_all decide) 2

/-- Activation sets the state to OPERATING and leaves the previous-command
buffer and the observed flag unchanged. -/
lemma operate_true_fields (s : OperatorState) :
    (operateEmergencyStop s true).1.state = MrmState.OPERATING ∧
    (operateEmergencyStop s true).1.prev_control_cmd = s.prev_control_cmd ∧
    (operateEmergencyStop s true).1.is_prev_control_cmd_subscribed =
      s.is_prev_control_cmd_subscribed := by
  unfold operateEmergencyStop
  simp

/-- With an observed upstream command, activation snapshots its lateral part. -/
lemma operate_true_snapshot_subscribed (s : OperatorState)
    (h : s.is_prev_control_cmd_subscribed = true) :
    (operateEmergencyStop s true).1.lateral_cmd_at_start_of_emergency_stop =
      s.prev_control_cmd.lateral := by
  unfold operateEmergencyStop
  simp [h]

/-- Without an observed upstream command, activation zeroes the snapshot's
angle and rate, keeping its old stamp. -/
lemma operate_true_snapshot_unsubscribed (s : OperatorState)
    (h : s.is_prev_control_cmd_subscribed = false) :
    (operateEmergencyStop s true).1.lateral_cmd_at_start_of_emergency_stop =
      { stamp := s.lateral_cmd_at_start_of_emergency_stop.stamp, steering_tire_angle := 0, steering_tire_rotation_rate := 0 } := by
  unfold operateEmergencyStop
  simp [h]

/-- A run without takeover requests from an OPERATING state keeps the state
OPERATING, the observed flag, the frozen lateral snapshot, and (when the flag
is set) the lateral part of the previous-command buffer. -/
lemma run_operating_no_operate (params : Parameters) (s : OperatorState)
    (hs : s.state = MrmState.OPERATING)
    (es : List Event) (hes : ∀ e ∈ es, e.isOperate = false) :
    (run params s es).1.state = MrmState.OPERATING ∧
    (run params s es).1.is_prev_control_cmd_subscribed =
      s.is_prev_control_cmd_subscribed ∧
    (run params s es).1.lateral_cmd_at_start_of_emergency_stop =
      s.lateral_cmd_at_start_of_emergency_stop ∧
    (s.is_prev_control_cmd_subscribed = true →
      (run params s es).1.prev_control_cmd.lateral = s.prev_control_cmd.lateral) := by
  induction es generalizing s with
  | nil => exact ⟨hs, rfl, rfl, fun _ => rfl⟩
  | cons e es ih =>
    have htail : ∀ x ∈ es, x.isOperate = false :=
      fun x hx => hes x (List.mem_cons_of_mem e hx)
    cases e with
    | operate flag =>
      exact absurd (hes _ (List.mem_cons_self _ _)) (by simp [Event.isOperate])
    | controlCommand msg =>
      have hstep : step params s (Event.controlCommand msg) = (s, []) := by
        simp [step, onControlCommand, hs]
      rw [run, hstep]
      exact ih s hs htail
    | timerTick t =>
      rw [run]
      have hstep : step params s (Event.timerTick t) =
          ((onTimer params t s).1, [(onTimer params t s).2]) := rfl
      rw [hstep]
      dsimp only
      have hs1 : (onTimer params t s).1.state = MrmState.OPERATING := by
        rw [onTimer_state]
        exact hs
      obtain ⟨h1, h2, h3, h4⟩ := ih _ hs1 htail
      rw [onTimer_flag] at h2
      rw [onTimer_snapshot] at h3
      refine ⟨h1, h2, h3, fun hsub => ?_⟩
      rw [h4 (by rw [onTimer_flag]; exact hsub)]
      obtain ⟨hp1, hp2⟩ := onTimer_prev_operating params t s hs
      rw [hp1, hp2, hsub]
      exact calc_lateral_passthrough params t s.prev_control_cmd

/-- Claim C8: re-activating while OPERATING, after any ticks and ignored
inbound commands, leaves the state and the frozen lateral snapshot identical
to their values after the first activation. -/
theorem C8_reactivation_idempotent (params : Parameters) (s : OperatorState)
    (es : List Event) (hes : ∀ e ∈ es, e.isOperate = false) :
    (operateEmergencyStop
        (run params (operateEmergencyStop s true).1 es).1 true).1.state =
      (operateEmergencyStop s true).1.state ∧
    (operateEmergencyStop
        (run params (operateEmergencyStop s true).1 es).1
        true).1.lateral_cmd_at_start_of_emergency_stop =
      (operateEmergencyStop s true).1.lateral_cmd_at_start_of_emergency_stop := by
  obtain ⟨hst1, hprev1, hsub1⟩ := operate_true_fields s
  obtain ⟨h1, h2, h3, h4⟩ :=
    run_operating_no_operate params (operateEmergencyStop s true).1 hst1 es hes
  constructor
  · rw [(operate_true_fields _).1, hst1]
  · cases hsub : s.is_prev_control_cmd_subscribed with
    | true =>
      have hsub2 : (run params (operateEmergencyStop s true).1
          es).1.is_prev_control_cmd_subscribed = true := by
        rw [h2, hsub1]
        exact hsub
      rw [operate_true_snapshot_subscribed _ hsub2,
          h4 (by rw [hsub1]; exact hsub), hprev1,
          operate_true_snapshot_subscribed s hsub]
    | false =>
      have hsub2 : (run params (operateEmergencyStop s true).1
          es).1.is_prev_control_cmd_subscribed = false := by
        rw [h2, hsub1]
        exact hsub
      rw [operate_true_snapshot_unsubscribed _ hsub2, h3,
          operate_true_snapshot_unsubscribed s hsub]

/-- Witness for C8: re-activation after a tick and an ignored inbound command,
starting from a state that has observed an upstream command. -/
theorem C8_reactivation_idempotent_witness :
    (operateEmergencyStop
        (run params0 (operateEmergencyStop sObs true).1
          [Event.timerTick 1, Event.controlCommand msgBad]).1 true).1.state =
      (operateEmergencyStop sObs true).1.state ∧
    (operateEmergencyStop
        (run params0 (operateEmergencyStop sObs true).1
          [Event.timerTick 1, Event.controlCommand msgBad]).1
        true).1.lateral_cmd_at_start_of_emergency_stop =
      (operateEmergencyStop sObs true).1.lateral_cmd_at_start_of_emergency_stop :=
  C8_reactivation_idempotent params0 sObs [Event.timerTick 1, Event.controlCommand msgBad]
    (by with_unfolding_all decide)

/-- Agreement on every state field the handlers read when producing published
commands: everything except the frozen lateral snapshot. -/
def LowEq (s t : OperatorState) : Prop :=
  s.state = t.state ∧ s.prev_control_cmd = t.prev_control_cmd ∧
  s.is_prev_control_cmd_subscribed = t.is_prev_control_cmd_subscribed

/-- Each handler preserves snapshot-indifference and publishes the same
commands from snapshot-indifferent states. -/
lemma step_lowEq (params : Parameters) (s t : OperatorState) (h : LowEq s t) (e : Event) :
    LowEq (step params s e).1 (step params t e).1 ∧
    (step params s e).2 = (step params t e).2 := by
  obtain ⟨h1, h2, h3⟩ := h
  cases e with
  | controlCommand msg =>
    simp only [step]
    unfold onControlCommand
    rw [h1]
    by_cases hc : t.state = MrmState.OPERATING
    · rw [if_neg (fun hn => hn hc), if_neg (fun hn => hn hc)]
      exact ⟨⟨h1, h2, h3⟩, trivial⟩
    · rw [if_pos hc, if_pos hc]
      exact ⟨⟨rfl, rfl, rfl⟩, trivial⟩
  | operate flag =>
    cases flag
    · exact ⟨⟨rfl, h2, h3⟩, rfl⟩
    · exact ⟨⟨rfl, h2, h3⟩, rfl⟩
  | timerTick now =>
    simp only [step]
    unfold onTimer
    rw [h1, h2, h3]
    by_cases hc : t.state = MrmState.OPERATING
    · rw [if_pos hc, if_pos hc]
      exact ⟨⟨rfl, rfl, rfl⟩, rfl⟩
    · rw [if_neg hc, if_neg hc]
      exact ⟨⟨h1, h2, h3⟩, rfl⟩

/-- Runs from snapshot-indifferent states publish identical command lists and
end in snapshot-indifferent states. -/
lemma run_lowEq (params : Parameters) (s t : OperatorState) (h : LowEq s t)
    (es : List Event) :
    LowEq (run params s es).1 (run params t es).1 ∧
    (run params s es).2 = (run params t es).2 := by
  induction es generalizing s t with
  | nil => exact ⟨h, rfl⟩
  | cons e es ih =>
    obtain ⟨hs, ho⟩ := step_lowEq params s t h e
    obtain ⟨hs2, ho2⟩ := ih _ _ hs
    simp only [run]
    exact ⟨hs2, by rw [ho, ho2]⟩

/-- Claim C10: two runs from states that differ only in the frozen lateral
snapshot publish identical control command sequences — the snapshot field is
written at activation but never read when producing output. -/
theorem C10_snapshot_noninterference (params : Parameters) (s t : OperatorState)
    (hstate : s.state = t.state) (hprev : s.prev_control_cmd = t.prev_control_cmd)
    (hsub : s.is_prev_control_cmd_subscribed = t.is_prev_control_cmd_subscribed)
    (es : List Event) :
    (run params s es).2 = (run params t es).2 :=
  (run_lowEq params s t ⟨hstate, hprev, hsub⟩ es).2

/-- The activated state with its frozen lateral snapshot overwritten by an
arbitrary different value. -/
def sOpAlt : OperatorState :=
  { sOp with lateral_cmd_at_start_of_emergency_stop := { stamp := 7, steering_tire_angle := 3, steering_tire_rotation_rate := 4 } }

/-- Witness for C10: identical published sequences across a tick, an ignored
inbound command, a deactivation and another tick. -/
theorem C10_snapshot_noninterference_witness :
    (run params0 sOp [Event.timerTick 1, Event.controlCommand msgBad,
        Event.operate false, Event.timerTick 2]).2 =
      (run params0 sOpAlt [Event.timerTick 1, Event.controlCommand msgBad,
        Event.operate false, Event.timerTick 2]).2 :=
  C10_snapshot_noninterference params0 sOp sOpAlt rfl rfl rfl
    [Event.timerTick 1, Event.controlCommand msgBad, Event.operate false, Event.timerTick 2]

end MrmEmergencyStop
